import Mathlib

/-!
Verification of the Orange Sage scan-orchestration and finding-aggregation
pipeline. The definitions below are shallow embeddings of the Python source:

* `backend/app/api/v1/endpoints/comprehensive_scan.py`
  (`_assess_risk_level`, `_correlate_findings`,
  `_generate_security_recommendations`, `_execute_comprehensive_scan`,
  `get_comprehensive_scan_status` progress computation)
* `backend/app/services/agent_manager.py`
  (`AgentManager.start_scan`, `AgentManager._execute_agent`,
  `AgentManager.cancel_scan`)
* `backend/app/services/microservices_orchestrator.py`
  (`MicroservicesOrchestrator._generate_analysis_summary`)

Machine integers do not occur (all arithmetic is on small Python ints /
counts), so `Nat` is used throughout; timestamps are abstracted as `Nat`
instants.
-/

namespace OrangeSage

/-- A security finding, restricted to the fields the analysed functions
actually read: `title`, `description`, `severity` and `finding_type`
(the remaining ORM columns — endpoint, parameter, payload, … — are never
consulted by the risk scorer, correlator or recommendation generator). -/
structure Finding where
  title : String
  description : String
  severity : String
  finding_type : String
deriving DecidableEq

/-- Does the character list `hay` start with the character list `needle`? -/
def startsWithChars : List Char → List Char → Bool
  | [], _ => true
  | _ :: _, [] => false
  | a :: as, b :: bs => a == b && startsWithChars as bs

/-- Does `hay` contain `needle` as a contiguous sublist?  This embeds
Python's substring test `needle in hay`. -/
def hasSubChars (needle : List Char) : List Char → Bool
  | [] => needle.isEmpty
  | c :: t => startsWithChars needle (c :: t) || hasSubChars needle t

/-- Embeds Python's `needle in s.lower()` for a lower-case ASCII
`needle`: the characters of `s` are lower-cased and the needle is
searched for as a contiguous substring. -/
def containsLowered (s : String) (needle : String) : Bool :=
  hasSubChars needle.toList (s.toList.map Char.toLower)

/-- Embeds `len([f for f in findings if f.severity == 'critical'])`. -/
def criticalCount (findings : List Finding) : Nat :=
  (findings.filter (fun f => f.severity == "critical")).length

/-- Embeds `len([f for f in findings if f.severity == 'high'])`. -/
def highCount (findings : List Finding) : Nat :=
  (findings.filter (fun f => f.severity == "high")).length

/-- Embeds `len([f for f in findings if f.severity == 'medium'])`. -/
def mediumCount (findings : List Finding) : Nat :=
  (findings.filter (fun f => f.severity == "medium")).length

/-- Embeds `len([f for f in findings if f.severity == 'low'])`. -/
def lowCount (findings : List Finding) : Nat :=
  (findings.filter (fun f => f.severity == "low")).length

/-- The risk-level banding chain that appears verbatim in both
`_assess_risk_level` (comprehensive_scan.py) and
`_generate_analysis_summary` (microservices_orchestrator.py):
`if risk_score >= 80: "CRITICAL" elif >= 60: "HIGH" elif >= 40: "MEDIUM"
else: "LOW"`. -/
def riskLevelOf (risk_score : Nat) : String :=
  if 80 ≤ risk_score then "CRITICAL"
  else if 60 ≤ risk_score then "HIGH"
  else if 40 ≤ risk_score then "MEDIUM"
  else "LOW"

/-- Return value of `_assess_risk_level`. -/
structure RiskAssessment where
  total_findings : Nat
  critical_count : Nat
  high_count : Nat
  medium_count : Nat
  low_count : Nat
  risk_score : Nat
  risk_level : String
  high_risk_combinations : List String
deriving DecidableEq

/-- Embeds `_assess_risk_level` from comprehensive_scan.py:
severity counts, `risk_score = min(c*10 + h*7 + m*4 + l*1, 100)`,
the banding chain, and the two advisory combination flags. -/
def assessRiskLevel (findings : List Finding) : RiskAssessment :=
  let total_findings := findings.length
  let critical_count := criticalCount findings
  let high_count := highCount findings
  let medium_count := mediumCount findings
  let low_count := lowCount findings
  let risk_score := critical_count * 10 + high_count * 7 + medium_count * 4 + low_count * 1
  let risk_score := min risk_score 100
  let risk_level := riskLevelOf risk_score
  let high_risk_combinations :=
    (if 0 < critical_count && 2 < high_count
      then ["Multiple critical and high severity findings"] else [])
    ++ (if 20 < total_findings then ["High volume of security findings"] else [])
  { total_findings, critical_count, high_count, medium_count, low_count,
    risk_score, risk_level, high_risk_combinations }

/-- C1: `_assess_risk_level` returns
`risk_score = min(100, 10*critical + 7*high + 4*medium + 1*low)`,
an info-severity finding contributes nothing to the score, and the risk
level bands are CRITICAL for score ≥ 80, HIGH for 60 ≤ score < 80,
MEDIUM for 40 ≤ score < 60, LOW for score < 40, each lower bound
inclusive. -/
theorem c1_risk_assessment (fs : List Finding) (t d ty : String) :
    (assessRiskLevel fs).risk_score =
      min 100 (10 * criticalCount fs + 7 * highCount fs
        + 4 * mediumCount fs + 1 * lowCount fs)
    ∧ (assessRiskLevel ((⟨t, d, "info", ty⟩ : Finding) :: fs)).risk_score
        = (assessRiskLevel fs).risk_score
    ∧ ((assessRiskLevel fs).risk_level = "CRITICAL" ↔ 80 ≤ (assessRiskLevel fs).risk_score)
    ∧ ((assessRiskLevel fs).risk_level = "HIGH" ↔
        60 ≤ (assessRiskLevel fs).risk_score ∧ (assessRiskLevel fs).risk_score < 80)
    ∧ ((assessRiskLevel fs).risk_level = "MEDIUM" ↔
        40 ≤ (assessRiskLevel fs).risk_score ∧ (assessRiskLevel fs).risk_score < 60)
    ∧ ((assessRiskLevel fs).risk_level = "LOW" ↔ (assessRiskLevel fs).risk_score < 40) := by
  refine ⟨?_, ?_, ?_, ?_, ?_, ?_⟩
  · simp [assessRiskLevel, Nat.min_comm]
    ring_nf
  · simp [assessRiskLevel, criticalCount, highCount, mediumCount, lowCount,
      List.filter]
  all_goals
    simp only [assessRiskLevel, riskLevelOf]
    split_ifs with h1 h2 h3 <;> simp_all <;> omega

/-! ## Correlator (`_correlate_findings`, comprehensive_scan.py) -/

/-- One attack-chain record `{chain, findings, risk_level}`. -/
structure AttackChain where
  chain : String
  findings : List Finding
  risk_level : String
deriving DecidableEq

/-- Return value of `_correlate_findings`. -/
structure CorrelationResult where
  findings_by_type : List (String × Nat)
  findings_by_severity : List (String × Nat)
  attack_chains : List AttackChain
  correlation_score : Nat
deriving DecidableEq

/-- Increment the count stored under key `k` (append the key with count 1
when absent), preserving first-insertion order — the behaviour of the
Python dict accumulation in `_correlate_findings`. -/
def bumpCount (k : String) : List (String × Nat) → List (String × Nat)
  | [] => [(k, 1)]
  | (k', n) :: t => if k' == k then (k', n + 1) :: t else (k', n) :: bumpCount k t

/-- Counts grouped by `key`, in order of first appearance, embedding the
`findings_by_type` / `findings_by_severity` dict building followed by
`{k: len(v) ...}`. -/
def groupCounts (key : Finding → String) (fs : List Finding) : List (String × Nat) :=
  fs.foldl (fun acc f => bumpCount (key f) acc) []

/-- Embeds `[f for f in findings if f.finding_type == 'sql_injection']`. -/
def sqlInjectionFindings (fs : List Finding) : List Finding :=
  fs.filter (fun f => f.finding_type == "sql_injection")

/-- Embeds `[f for f in findings if 'data' in f.title.lower() or 'information' in
f.title.lower()]` — note the source inspects only the title. -/
def dataExposureFindings (fs : List Finding) : List Finding :=
  fs.filter (fun f =>
    containsLowered f.title "data" || containsLowered f.title "information")

/-- Embeds `[f for f in findings if f.finding_type == 'xss']`. -/
def xssFindings (fs : List Finding) : List Finding :=
  fs.filter (fun f => f.finding_type == "xss")

/-- Embeds `[f for f in findings if 'session' in f.title.lower()]` — again only
the title is inspected. -/
def sessionFindings (fs : List Finding) : List Finding :=
  fs.filter (fun f => containsLowered f.title "session")

/-- Embeds `_correlate_findings`: the two grouping maps, the two baseline
attack-chain rules, and `correlation_score = len(attack_chains) * 10`. -/
def correlateFindings (fs : List Finding) : CorrelationResult :=
  let findings_by_type := groupCounts (fun f => f.finding_type) fs
  let findings_by_severity := groupCounts (fun f => f.severity) fs
  let sqlChains : List AttackChain :=
    if !(sqlInjectionFindings fs).isEmpty && !(dataExposureFindings fs).isEmpty then
      [⟨"SQL Injection -> Data Exfiltration",
        sqlInjectionFindings fs ++ dataExposureFindings fs, "high"⟩]
    else []
  let xssChains : List AttackChain :=
    if !(xssFindings fs).isEmpty && !(sessionFindings fs).isEmpty then
      [⟨"XSS -> Session Hijacking", xssFindings fs ++ sessionFindings fs, "high"⟩]
    else []
  let attack_chains := sqlChains ++ xssChains
  ⟨findings_by_type, findings_by_severity, attack_chains, attack_chains.length * 10⟩

/-- The firing condition of the SQL-injection rule as the specification
states it: a finding of type `sql_injection` exists AND a finding whose
title OR description contains "data" or "information" (case-insensitive)
exists. The source, by contrast, inspects only the title. -/
def specSqlRuleFires (fs : List Finding) : Bool :=
  !(fs.filter (fun f => f.finding_type == "sql_injection")).isEmpty &&
  !(fs.filter (fun f =>
      containsLowered f.title "data"
      || containsLowered f.description "data"
      || containsLowered f.title "information"
      || containsLowered f.description "information")).isEmpty

/-- A finding whose description (but not title) mentions "data". -/
def c3Finding : Finding :=
  ⟨"SQL flaw", "Attacker can read data", "high", "sql_injection"⟩

/-- C3 counterexample: on a finding list where the SQL-injection rule's
signal occurs only in a description, the rule fires according to the
claim's title-or-description condition, yet `_correlate_findings` emits no
chain and a correlation score of 0 — refuting the claim's "exactly when". -/
theorem c3_counterexample :
    specSqlRuleFires [c3Finding] = true
    ∧ (correlateFindings [c3Finding]).attack_chains = []
    ∧ (correlateFindings [c3Finding]).correlation_score = 0 := by
  refine ⟨by decide, by decide, by decide⟩

/-- C3 (amended): the rules match the signal against the finding title
only. Each rule fires exactly when a finding of its precondition type and
a finding whose TITLE contains its signal (case-insensitive) both exist;
a fired rule contributes one chain record whose findings are the matched
precondition findings followed by the matched signal findings, with risk
level "high"; and the correlation score is 10 times the number of fired
chains. -/
theorem c3_correlation (fs : List Finding) :
    (correlateFindings fs).attack_chains =
      (if !(sqlInjectionFindings fs).isEmpty && !(dataExposureFindings fs).isEmpty then
        [⟨"SQL Injection -> Data Exfiltration",
          sqlInjectionFindings fs ++ dataExposureFindings fs, "high"⟩]
      else [])
      ++ (if !(xssFindings fs).isEmpty && !(sessionFindings fs).isEmpty then
        [⟨"XSS -> Session Hijacking", xssFindings fs ++ sessionFindings fs, "high"⟩]
      else [])
    ∧ (correlateFindings fs).correlation_score
        = 10 * (correlateFindings fs).attack_chains.length
    ∧ (correlateFindings fs).attack_chains.length
        = (if !(sqlInjectionFindings fs).isEmpty && !(dataExposureFindings fs).isEmpty
            then 1 else 0)
          + (if !(xssFindings fs).isEmpty && !(sessionFindings fs).isEmpty then 1 else 0) := by
  refine ⟨rfl, Nat.mul_comm _ _, ?_⟩
  simp only [correlateFindings, List.length_append]
  split_ifs <;> simp

/-! ## Recommendation generator (`_generate_security_recommendations`) -/

/-- Advice line emitted when a critical-severity finding is present. -/
def criticalAdvice : String :=
  "Immediately address all critical severity findings as they pose the highest risk."

/-- Advice line emitted when a `sql_injection`-type finding is present. -/
def sqlAdvice : String :=
  "Implement parameterized queries and input validation to prevent SQL injection attacks."

/-- Advice line emitted when an `xss`-type finding is present. -/
def xssAdvice : String :=
  "Implement proper input validation and output encoding to prevent XSS attacks."

/-- The fixed tail of six general best-practice lines appended by
`recommendations.extend([...])` in the source. -/
def generalRecommendations : List String :=
  ["Conduct regular security assessments and penetration testing.",
   "Implement a Web Application Firewall (WAF) for additional protection.",
   "Establish security awareness training for development teams.",
   "Implement a secure development lifecycle (SDL) process.",
   "Regularly update and patch all software components.",
   "Implement comprehensive logging and monitoring for security events."]

/-- Embeds `_generate_security_recommendations`: an accumulator list with
one conditional append per matched condition (critical severity, then
sql_injection, then xss), then the general tail is extended onto it. -/
def generateSecurityRecommendations (findings : List Finding) : List String :=
  let recommendations : List String := []
  let recommendations :=
    if !(findings.filter (fun f => f.severity == "critical")).isEmpty
    then recommendations ++ [criticalAdvice] else recommendations
  let recommendations :=
    if !(findings.filter (fun f => f.finding_type == "sql_injection")).isEmpty
    then recommendations ++ [sqlAdvice] else recommendations
  let recommendations :=
    if !(findings.filter (fun f => f.finding_type == "xss")).isEmpty
    then recommendations ++ [xssAdvice] else recommendations
  recommendations ++ generalRecommendations

/-- C4: the recommendation generator returns the condition-specific lines
first — at most one per matched condition, in the fixed order critical,
sql_injection, xss — followed by the fixed six-line general tail; the
result is never empty, and on the empty finding list it is exactly the
general tail. -/
theorem c4_recommendations (fs : List Finding) :
    generateSecurityRecommendations fs =
      ((if !(fs.filter (fun f => f.severity == "critical")).isEmpty
          then [criticalAdvice] else [])
        ++ (if !(fs.filter (fun f => f.finding_type == "sql_injection")).isEmpty
          then [sqlAdvice] else [])
        ++ (if !(fs.filter (fun f => f.finding_type == "xss")).isEmpty
          then [xssAdvice] else []))
      ++ generalRecommendations
    ∧ generateSecurityRecommendations fs ≠ []
    ∧ generalRecommendations.length = 6
    ∧ generateSecurityRecommendations [] = generalRecommendations := by
  refine ⟨?_, ?_, rfl, rfl⟩
  · simp only [generateSecurityRecommendations]
    split_ifs <;> simp
  · simp only [generateSecurityRecommendations, generalRecommendations]
    split_ifs <;> simp

/-! ## Microservices orchestrator summary (`_generate_analysis_summary`) -/

/-- A finding as seen by the microservices orchestrator: a plain dict, so
`f.get('severity')` / `f.get('type')` may be absent (`none`). -/
structure MSFinding where
  severity : Option String
  ftype : Option String
deriving DecidableEq

/-- Risk-relevant part of the summary dict returned by
`_generate_analysis_summary` (the `top_vulnerabilities` list is a
report-ordering artefact with no bearing on the risk figures and is not
modelled). -/
structure MSSummary where
  total_findings : Nat
  critical_count : Nat
  high_count : Nat
  medium_count : Nat
  low_count : Nat
  risk_score : Nat
  risk_level : String
  findings_by_type : List (String × Nat)
deriving DecidableEq

/-- Increment the count for `k` in the orchestrator's `findings_by_type`
dict, preserving first-insertion order. -/
def bumpCountMS (k : String) : List (String × Nat) → List (String × Nat)
  | [] => [(k, 1)]
  | (k', n) :: t => if k' == k then (k', n + 1) :: t else (k', n) :: bumpCountMS k t

/-- Embeds `MicroservicesOrchestrator._generate_analysis_summary`:
severity counts via `f.get('severity') == '…'`, the identical
`min(…, 100)` risk score and banding chain as `_assess_risk_level`, and
the `findings_by_type` grouping via `f.get('type', 'unknown')`. -/
def generateAnalysisSummary (findings : List MSFinding) : MSSummary :=
  let total_findings := findings.length
  let critical_count := (findings.filter (fun f => f.severity == some "critical")).length
  let high_count := (findings.filter (fun f => f.severity == some "high")).length
  let medium_count := (findings.filter (fun f => f.severity == some "medium")).length
  let low_count := (findings.filter (fun f => f.severity == some "low")).length
  let risk_score := critical_count * 10 + high_count * 7 + medium_count * 4 + low_count * 1
  let risk_score := min risk_score 100
  let risk_level := riskLevelOf risk_score
  let findings_by_type :=
    findings.foldl (fun acc f => bumpCountMS (f.ftype.getD "unknown") acc) []
  { total_findings, critical_count, high_count, medium_count, low_count,
    risk_score, risk_level, findings_by_type }

/-- The severity-filtered length of a finding list equals the number of
occurrences of that severity in the projected severity list. -/
theorem finding_severity_filter_count (fs : List Finding) (s : String) :
    (fs.filter (fun f => f.severity == s)).length
      = (fs.map (fun f => (some f.severity : Option String))).countP
          (fun x => x == some s) := by
  induction fs with
  | nil => rfl
  | cons f t ih =>
    by_cases h : f.severity = s
    · simp [List.countP_cons, List.filter_cons, h, ih]
    · simp [List.countP_cons, List.filter_cons, h, ih]

/-- The severity-filtered length of an `MSFinding` list equals the number
of occurrences of that severity in the projected severity list. -/
theorem msfinding_severity_filter_count (fs : List MSFinding) (s : String) :
    (fs.filter (fun f => f.severity == some s)).length
      = (fs.map (fun f => f.severity)).countP (fun x => x == some s) := by
  induction fs with
  | nil => rfl
  | cons f t ih =>
    by_cases h : f.severity = some s
    · simp [List.countP_cons, List.filter_cons, h, ih]
    · simp [List.countP_cons, List.filter_cons, h, ih]

/-- C10: the advanced-analysis risk assessor (`_assess_risk_level`) and
the microservices orchestrator's summary (`_generate_analysis_summary`)
agree on every pair of inputs carrying the same multiset of severity
values: equal critical/high/medium/low counts, equal total, equal risk
score and equal risk level. -/
theorem c10_risk_scorers_agree (fs1 : List Finding) (fs2 : List MSFinding)
    (h : (fs1.map (fun f => (some f.severity : Option String))).Perm
          (fs2.map (fun f => f.severity))) :
    (assessRiskLevel fs1).critical_count = (generateAnalysisSummary fs2).critical_count
    ∧ (assessRiskLevel fs1).high_count = (generateAnalysisSummary fs2).high_count
    ∧ (assessRiskLevel fs1).medium_count = (generateAnalysisSummary fs2).medium_count
    ∧ (assessRiskLevel fs1).low_count = (generateAnalysisSummary fs2).low_count
    ∧ (assessRiskLevel fs1).total_findings = (generateAnalysisSummary fs2).total_findings
    ∧ (assessRiskLevel fs1).risk_score = (generateAnalysisSummary fs2).risk_score
    ∧ (assessRiskLevel fs1).risk_level = (generateAnalysisSummary fs2).risk_level := by
  have hcount : ∀ s : String,
      (fs1.filter (fun f => f.severity == s)).length
        = (fs2.filter (fun f => f.severity == some s)).length := by
    intro s
    rw [finding_severity_filter_count, msfinding_severity_filter_count]
    exact h.countP_eq (fun x => x == some s)
  have hc := hcount "critical"
  have hh := hcount "high"
  have hm := hcount "medium"
  have hl := hcount "low"
  have hlen : fs1.length = fs2.length := by
    have := h.length_eq
    simpa using this
  simp only [assessRiskLevel, generateAnalysisSummary, criticalCount, highCount,
    mediumCount, lowCount, hc, hh, hm, hl, hlen, and_self, and_true, true_and]

/-- C10 witness: the agreement theorem applied to a concrete ORM finding
list and a concrete dict finding list with the same severity multiset. -/
theorem c10_risk_scorers_agree_witness :
    (assessRiskLevel [⟨"A", "a", "high", "xss"⟩, ⟨"B", "b", "critical", "sql_injection"⟩]).risk_score
      = (generateAnalysisSummary [⟨some "critical", some "web"⟩, ⟨some "high", none⟩]).risk_score := by
  exact (c10_risk_scorers_agree
    [⟨"A", "a", "high", "xss"⟩, ⟨"B", "b", "critical", "sql_injection"⟩]
    [⟨some "critical", some "web"⟩, ⟨some "high", none⟩]
    (by decide)).2.2.2.2.2.1

/-! ## Scan state and the comprehensive-scan driver
    (`_execute_comprehensive_scan`, comprehensive_scan.py) -/

/-- The `ScanStatus` enum from `app/models/scan.py`. -/
inductive ScanStatus where
  | pending
  | running
  | completed
  | failed
  | cancelled
deriving DecidableEq

/-- Result of one analysis phase as recorded in the scan summary: the
phase's payload (its findings) on success, or the structured
`{'error': str(e)}` dict produced by the phase's local except-handler. -/
inductive PhaseResult where
  | ok (findings : List Finding)
  | err (msg : String)
deriving DecidableEq

/-- The summary snapshot written by `_execute_comprehensive_scan` on
completion. -/
structure ScanSummary where
  phases_completed : Nat
  ai_agent_results : PhaseResult
  microservices_results : PhaseResult
  advanced_results : PhaseResult
  report_generated : Bool
deriving DecidableEq

/-- The scan row together with its Finding-Store contents. -/
structure ScanRecord where
  status : ScanStatus
  started_at : Option Nat
  finished_at : Option Nat
  error_message : Option String
  summary : Option ScanSummary
  findings : List Finding
deriving DecidableEq

/-- Embeds `_run_ai_pentesting` / `_run_microservices_analysis`: the whole
phase body sits in a `try`; on success the phase's findings are committed
to the Finding Store and returned as the phase result, and on any
exception the local handler returns `{'error': str(e)}` with nothing
appended. The underlying pentest/microservice call's outcome is the
`beh` parameter. -/
def runFindingPhase (beh : Except String (List Finding)) (scan : ScanRecord) :
    ScanRecord × PhaseResult :=
  match beh with
  | .ok fs => ({ scan with findings := scan.findings ++ fs }, .ok fs)
  | .error e => (scan, .err e)

/-- Embeds `_run_advanced_analysis` / `_generate_comprehensive_report` to
the extent the driver observes them: both only read the Finding Store
(appending nothing), and both convert any exception into an
`{'error': …}` result. The analysis payload itself is not consulted by
the driver, so it is modelled as the empty findings payload. -/
def runReadOnlyPhase (beh : Except String Unit) : PhaseResult :=
  match beh with
  | .ok _ => .ok []
  | .error e => .err e

/-- Embeds `_execute_comprehensive_scan`. The four phase runners never
let an exception escape (each converts it into an error result), so the
driver's own except-branch is reached only by a failure outside every
phase's try-scope — modelled by `outerRaise` — which marks the scan
FAILED with `error_message` and `finished_at`. Otherwise the scan is
marked RUNNING with `started_at` on entry, the phases run in order, and
the scan is marked COMPLETED with `finished_at` and the summary snapshot
(`report_generated` is `report_results is not None`, which is always
true because the report phase returns a dict even on error). -/
def executeComprehensiveScan (pentest ms : Except String (List Finding))
    (adv rep : Except String Unit) (outerRaise : Option String)
    (t0 t1 : Nat) (scan : ScanRecord) : ScanRecord :=
  match outerRaise with
  | some e =>
      { scan with status := .failed, error_message := some e, finished_at := some t1 }
  | none =>
      let scan1 := { scan with status := .running, started_at := some t0 }
      let p1 := runFindingPhase pentest scan1
      let p2 := runFindingPhase ms p1.1
      let r3 := runReadOnlyPhase adv
      let _r4 := runReadOnlyPhase rep
      { p2.1 with status := .completed, finished_at := some t1,
                  summary := some ⟨4, p1.2, p2.2, r3, true⟩ }

/-- C2: an exception inside the Microservices-Analysis phase is converted
into a structured error result at the phase boundary: the Agent-Pentest
findings are still merged into the Finding Store, the scan still reaches
COMPLETED with `finished_at` set and the summary recording that phase's
error; only an error outside every phase's try-scope drives the scan to
FAILED. -/
theorem c2_phase_failure_isolated (fs : List Finding) (e : String)
    (adv rep : Except String Unit) (t0 t1 : Nat) (scan : ScanRecord) (m : String) :
    (executeComprehensiveScan (.ok fs) (.error e) adv rep none t0 t1 scan).status = .completed
    ∧ (executeComprehensiveScan (.ok fs) (.error e) adv rep none t0 t1 scan).findings
        = scan.findings ++ fs
    ∧ (executeComprehensiveScan (.ok fs) (.error e) adv rep none t0 t1 scan).summary
        = some ⟨4, .ok fs, .err e, runReadOnlyPhase adv, true⟩
    ∧ (executeComprehensiveScan (.ok fs) (.error e) adv rep none t0 t1 scan).finished_at
        = some t1
    ∧ (executeComprehensiveScan (.ok fs) (.error e) adv rep (some m) t0 t1 scan).status
        = .failed
    ∧ (executeComprehensiveScan (.ok fs) (.error e) adv rep (some m) t0 t1 scan).error_message
        = some m := by
  refine ⟨rfl, rfl, rfl, rfl, rfl, rfl⟩

/-! ## Progress reporting (`get_comprehensive_scan_status`) -/

/-- Embeds the progress computation of `get_comprehensive_scan_status`:
`progress = 0`, then `100` when COMPLETED, and when RUNNING either
`min(int(elapsed / 60 * 10), 90)` (with a start time) or `10` (without).
With the elapsed seconds as a natural number `e`, Python's
`int(e / 60 * 10)` is the integer floor `e * 10 / 60`. -/
def progressOf (status : ScanStatus) (started_at : Option Nat) (now : Nat) : Nat :=
  if status == .completed then 100
  else if status == .running then
    match started_at with
    | some s => min ((now - s) * 10 / 60) 90
    | none => 10
  else 0

/-- C8: the reported progress is 100 exactly when the scan is COMPLETED;
a RUNNING scan with no recorded start time reports 10; a RUNNING scan
with start time `s` reports `min(floor(e/60*10), 90)` for the elapsed
time `e = now - s`; and progress while RUNNING never exceeds 90. -/
theorem c8_progress (status : ScanStatus) (started : Option Nat) (now : Nat) :
    (progressOf status started now = 100 ↔ status = .completed)
    ∧ (status = .running → started = none → progressOf status started now = 10)
    ∧ (∀ s, status = .running → started = some s →
        progressOf status started now = min ((now - s) * 10 / 60) 90)
    ∧ (status = .running → progressOf status started now ≤ 90) := by
  cases status <;> cases started <;> simp [progressOf] <;> omega

/-- C8 witness: the progress contract evaluated at concrete inputs. -/
theorem c8_progress_witness :
    progressOf .running none 5 = 10
    ∧ progressOf .completed (some 3) 100 = 100
    ∧ progressOf .running (some 0) 3600 = 90 := by
  refine ⟨(c8_progress .running none 5).2.1 rfl rfl, ?_, ?_⟩
  · exact (c8_progress .completed (some 3) 100).1.mpr rfl
  · rw [(c8_progress .running (some 0) 3600).2.2.1 0 rfl rfl]
    decide

/-! ## Agent manager: cancellation (`AgentManager.cancel_scan`) -/

/-- The `AgentStatus` enum from `app/models/agent.py`. -/
inductive AgentStatus where
  | pending
  | running
  | completed
  | failed
  | cancelled
deriving DecidableEq

/-- The agent-row fields `cancel_scan` touches. -/
structure AgentRecord where
  agent_id : String
  status : AgentStatus
  finished_at : Option Nat
deriving DecidableEq

/-- State visible to `AgentManager.cancel_scan`: the scan row, the scan's
agent rows, and the keys of the in-memory `active_agents` dict. -/
structure ManagerState where
  scan : ScanRecord
  agents : List AgentRecord
  active_agents : List String
deriving DecidableEq

/-- Embeds `AgentManager.cancel_scan` for an existing scan. The scan row
is set to CANCELLED with `finished_at = now` unconditionally (the source
performs no status check); every agent row of the scan in status RUNNING
is set to CANCELLED with its own `finished_at = now`; and
`instance.cancel()` is invoked — best-effort, exceptions swallowed — for
each such RUNNING agent whose id is a key of `active_agents`. Returns
the new state together with the ids signalled. -/
def cancelScan (now : Nat) (st : ManagerState) : ManagerState × List String :=
  let scan := { st.scan with status := .cancelled, finished_at := some now }
  let signalled :=
    ((st.agents.filter (fun a => a.status == .running)).filter
      (fun a => st.active_agents.contains a.agent_id)).map (fun a => a.agent_id)
  let agents := st.agents.map (fun a =>
    if a.status == .running then { a with status := .cancelled, finished_at := some now }
    else a)
  ({ st with scan := scan, agents := agents }, signalled)

/-- C5: on a RUNNING scan, `cancel_scan` sets the scan to CANCELLED with
`finished_at = now`, transitions every RUNNING agent of the scan to
CANCELLED with its own `finished_at = now` (leaving non-RUNNING agents
untouched), and best-effort-signals exactly the RUNNING agents that have
an active in-memory instance. -/
theorem c5_cancel_running_scan (st : ManagerState) (now : Nat)
    (h : st.scan.status = .running) :
    (cancelScan now st).1.scan.status = .cancelled
    ∧ (cancelScan now st).1.scan.finished_at = some now
    ∧ (∀ a ∈ st.agents, a.status = .running →
        (⟨a.agent_id, .cancelled, some now⟩ : AgentRecord) ∈ (cancelScan now st).1.agents)
    ∧ (∀ a ∈ st.agents, a.status ≠ .running → a ∈ (cancelScan now st).1.agents)
    ∧ (cancelScan now st).2 =
        ((st.agents.filter (fun a => a.status == .running)).filter
          (fun a => st.active_agents.contains a.agent_id)).map (fun a => a.agent_id) := by
  refine ⟨rfl, rfl, ?_, ?_, rfl⟩
  · intro a ha hrun
    refine List.mem_map.mpr ⟨a, ha, ?_⟩
    simp [hrun]
  · intro a ha hrun
    refine List.mem_map.mpr ⟨a, ha, ?_⟩
    simp [hrun]

/-- C5 witness: cancelling a concrete RUNNING scan with one RUNNING agent
(with an active instance) and one COMPLETED agent. -/
theorem c5_cancel_running_scan_witness :
    (cancelScan 7 ⟨⟨.running, some 1, none, none, none, []⟩,
        [⟨"a1", .running, none⟩, ⟨"a2", .completed, some 3⟩], ["a1"]⟩).1.scan.status
      = .cancelled
    ∧ (⟨"a1", .cancelled, some 7⟩ : AgentRecord) ∈
        (cancelScan 7 ⟨⟨.running, some 1, none, none, none, []⟩,
          [⟨"a1", .running, none⟩, ⟨"a2", .completed, some 3⟩], ["a1"]⟩).1.agents := by
  have h := c5_cancel_running_scan
    ⟨⟨.running, some 1, none, none, none, []⟩,
      [⟨"a1", .running, none⟩, ⟨"a2", .completed, some 3⟩], ["a1"]⟩ 7 rfl
  exact ⟨h.1, h.2.2.1 ⟨"a1", .running, none⟩ (by decide) rfl⟩

/-- A manager state whose scan row already carries the terminal status
COMPLETED (with `finished_at` already recorded). -/
def completedScanState : ManagerState :=
  ⟨⟨.completed, some 1, some 2, none, none, []⟩, [], []⟩

/-- C6: `cancel_scan` performs no status guard, so calling it on a scan
that is already in the terminal status COMPLETED changes that scan's
status to CANCELLED and overwrites its `finished_at` — a subsequent
operation mutates a terminal scan, the opposite of the claimed
terminal-state stability and of the claimed no-op/error behaviour. -/
theorem c6_cancel_overrides_terminal :
    completedScanState.scan.status = .completed
    ∧ completedScanState.scan.finished_at = some 2
    ∧ (cancelScan 9 completedScanState).1.scan.status = .cancelled
    ∧ (cancelScan 9 completedScanState).1.scan.finished_at = some 9 := by
  exact ⟨rfl, rfl, rfl, rfl⟩

/-! ## Scan lifecycle timestamp invariant (start_scan, driver, cancel) -/

/-- Scan lifecycle record with a history flag `left_pending` recording
whether the status has ever left PENDING (needed to state the claimed
timestamp invariant). -/
structure ScanLifecycle where
  status : ScanStatus
  started_at : Option Nat
  finished_at : Option Nat
  error_message : Option String
  left_pending : Bool
deriving DecidableEq

/-- The orchestration operations the invariant quantifies over, as the
source implements them:
* `startOk t` — `AgentManager.start_scan` succeeding: RUNNING, `started_at`.
* `startFail t msg` — `start_scan` raising after its RUNNING transition
  (e.g. root-agent creation fails): the except-handler sets FAILED and
  `error_message` but does NOT set `finished_at`.
* `driverComplete t0 t1` — `_execute_comprehensive_scan` succeeding:
  RUNNING/`started_at` on entry, COMPLETED/`finished_at` on exit.
* `driverFail t0 t1 msg` — the driver's except-branch: FAILED,
  `error_message`, `finished_at`.
* `cancel t` — `AgentManager.cancel_scan`: CANCELLED, `finished_at`. -/
inductive ScanOp where
  | startOk (t : Nat)
  | startFail (t : Nat) (msg : String)
  | driverComplete (t0 t1 : Nat)
  | driverFail (t0 t1 : Nat) (msg : String)
  | cancel (t : Nat)
deriving DecidableEq

/-- Apply one orchestration operation to the scan row. -/
def applyOp (s : ScanLifecycle) : ScanOp → ScanLifecycle
  | .startOk t =>
      { s with status := .running, started_at := some t, left_pending := true }
  | .startFail t msg =>
      { s with status := .failed, started_at := some t, error_message := some msg,
               left_pending := true }
  | .driverComplete t0 t1 =>
      { s with status := .completed, started_at := some t0, finished_at := some t1,
               left_pending := true }
  | .driverFail t0 t1 msg =>
      { s with status := .failed, started_at := some t0, finished_at := some t1,
               error_message := some msg, left_pending := true }
  | .cancel t =>
      { s with status := .cancelled, finished_at := some t, left_pending := true }

/-- Run a sequence of orchestration operations. -/
def runOps (s : ScanLifecycle) : List ScanOp → ScanLifecycle
  | [] => s
  | op :: rest => runOps (applyOp s op) rest

/-- The scan row as created by the scan-creation endpoint: PENDING with
no timestamps. -/
def initialScan : ScanLifecycle := ⟨.pending, none, none, none, false⟩

/-- Is this one of the three terminal statuses? -/
def isTerminal (st : ScanStatus) : Bool :=
  st == .completed || st == .failed || st == .cancelled

/-- The claimed invariant: `started_at` is set iff the status has ever
left PENDING, and `finished_at` is set iff the status is terminal. -/
def timestampInv (s : ScanLifecycle) : Bool :=
  (s.started_at.isSome == s.left_pending)
    && (s.finished_at.isSome == isTerminal s.status)

/-- Does a sequence respect the spec's operation preconditions
(`start_scan` requires PENDING, `cancel_scan` requires RUNNING)? -/
def validOpsFrom (s : ScanLifecycle) : List ScanOp → Bool
  | [] => true
  | op :: rest =>
    (match op with
     | .startOk _ => s.status == .pending
     | .startFail _ _ => s.status == .pending
     | .cancel _ => s.status == .running
     | .driverComplete _ _ => true
     | .driverFail _ _ _ => true) && validOpsFrom (applyOp s op) rest

/-- Does the sequence contain a `start_scan`-failure operation? -/
def hasStartFail : List ScanOp → Bool
  | [] => false
  | .startFail _ _ :: _ => true
  | _ :: rest => hasStartFail rest

/-- C7 counterexample: starting from the fresh PENDING scan, a failing
`start_scan` (a precondition-respecting operation) leaves the scan
FAILED with `finished_at` still unset — the claimed invariant
"finished_at is set iff the status is terminal" is false after it. -/
theorem c7_counterexample :
    timestampInv initialScan = true
    ∧ validOpsFrom initialScan [.startFail 3 "agent creation failed"] = true
    ∧ (runOps initialScan [.startFail 3 "agent creation failed"]).status = .failed
    ∧ (runOps initialScan [.startFail 3 "agent creation failed"]).finished_at = none
    ∧ timestampInv (runOps initialScan [.startFail 3 "agent creation failed"]) = false := by
  refine ⟨rfl, rfl, rfl, rfl, rfl⟩

/-- Auxiliary strengthened invariant: the timestamp invariant together
with coherence of the history flag (a non-PENDING status means the scan
has left PENDING). -/
def lifecycleInv (s : ScanLifecycle) : Bool :=
  timestampInv s && (s.status == .pending || s.left_pending)

/-- The strengthened invariant is preserved along every
precondition-respecting sequence free of `start_scan` failures. -/
theorem lifecycleInv_runOps (ops : List ScanOp) : ∀ s : ScanLifecycle,
    lifecycleInv s = true → validOpsFrom s ops = true → hasStartFail ops = false →
    lifecycleInv (runOps s ops) = true := by
  induction ops with
  | nil => intro s h _ _; exact h
  | cons op rest ih =>
    intro s h hv hf
    have hv1 := (Bool.and_eq_true _ _).mp hv
    cases op with
    | startOk t =>
        refine ih _ ?_ hv1.2 (by simpa [hasStartFail] using hf)
        have hp : s.status = .pending := by
          have := hv1.1; simpa using this
        simp_all [lifecycleInv, timestampInv, applyOp, isTerminal, runOps]
        all_goals decide
    | startFail t msg => simp [hasStartFail] at hf
    | driverComplete t0 t1 =>
        refine ih _ ?_ hv1.2 (by simpa [hasStartFail] using hf)
        simp [lifecycleInv, timestampInv, applyOp, isTerminal]
    | driverFail t0 t1 msg =>
        refine ih _ ?_ hv1.2 (by simpa [hasStartFail] using hf)
        simp [lifecycleInv, timestampInv, applyOp, isTerminal]
    | cancel t =>
        refine ih _ ?_ hv1.2 (by simpa [hasStartFail] using hf)
        have hr : s.status = .running := by
          have := hv1.1; simpa using this
        simp_all [lifecycleInv, timestampInv, applyOp, isTerminal, runOps]

/-- C7 (amended): along every sequence of the listed orchestration
operations that respects the spec preconditions (`start_scan` from
PENDING, `cancel_scan` from RUNNING) and contains no failing
`start_scan`, the invariant holds that `started_at` is set iff the
status has ever left PENDING and `finished_at` is set iff the status is
COMPLETED, FAILED or CANCELLED. The exclusion is forced: `start_scan`'s
failure path sets FAILED and `error_message` without `finished_at`. -/
theorem c7_timestamp_invariant (ops : List ScanOp)
    (hv : validOpsFrom initialScan ops = true) (hf : hasStartFail ops = false) :
    timestampInv (runOps initialScan ops) = true := by
  have h := lifecycleInv_runOps ops initialScan rfl hv hf
  exact ((Bool.and_eq_true _ _).mp h).1

/-- C7 witness: the amended invariant evaluated on the concrete sequence
start, driver-completion, i.e. a successful scan run. -/
theorem c7_timestamp_invariant_witness :
    timestampInv (runOps initialScan [.startOk 1, .driverComplete 1 5]) = true := by
  exact c7_timestamp_invariant [.startOk 1, .driverComplete 1 5] rfl rfl

/-! ## Agent execution (`AgentManager._execute_agent`) -/

/-- Result payload of `agent_instance.execute()` as consumed by
`_process_agent_results` (its findings list). -/
structure AgentRunResult where
  result_findings : List Finding
deriving DecidableEq

/-- The agent-row fields `_execute_agent` mutates. -/
structure AgentExecRecord where
  agent_id : String
  status : AgentStatus
  started_at : Option Nat
  finished_at : Option Nat
  error_message : Option String
  final_result : Option AgentRunResult
  sandbox_id : Option String
deriving DecidableEq

/-- State touched by `_execute_agent`: the agent row, the scan's Finding
Store, the keys of the in-memory `active_agents` dict, and the ids of
the sandboxes currently alive. -/
structure ExecState where
  agent : AgentExecRecord
  findings : List Finding
  active_agents : List String
  live_sandboxes : List String
deriving DecidableEq

/-- The `finally` block of `_execute_agent`: delete the agent from
`active_agents` when present, and destroy its sandbox when one was
attached to the agent row. -/
def execFinally (st : ExecState) : ExecState :=
  { st with
    active_agents := st.active_agents.filter (fun i => i != st.agent.agent_id),
    live_sandboxes :=
      match st.agent.sandbox_id with
      | some sid => st.live_sandboxes.filter (fun i => i != sid)
      | none => st.live_sandboxes }

/-- Embeds `AgentManager._execute_agent`. `sandboxRes` is the outcome of
`sandbox_service.create_sandbox` and `execRes` that of
`agent_instance.execute()`; either may raise (`.error`). The agent is
first set RUNNING with `started_at`; on sandbox creation the sandbox id
is attached and the agent registered in `active_agents`; on success the
result findings are merged into the Finding Store and the agent is set
COMPLETED with `final_result` and `finished_at`; on any exception the
agent is set FAILED with the message and `finished_at`; the `finally`
block always runs last. -/
def executeAgent (sandboxRes : Except String String)
    (execRes : Except String AgentRunResult) (t0 t1 : Nat) (st : ExecState) : ExecState :=
  let stR :=
    { st with agent := { st.agent with status := .running, started_at := some t0 } }
  match sandboxRes with
  | .error e =>
      execFinally { stR with agent :=
        { stR.agent with status := .failed, error_message := some e,
                         finished_at := some t1 } }
  | .ok sid =>
      let stS :=
        { stR with agent := { stR.agent with sandbox_id := some sid },
                   live_sandboxes := stR.live_sandboxes ++ [sid] }
      let stA := { stS with active_agents := stS.active_agents ++ [stS.agent.agent_id] }
      match execRes with
      | .error e =>
          execFinally { stA with agent :=
            { stA.agent with status := .failed, error_message := some e,
                             finished_at := some t1 } }
      | .ok r =>
          let stF := { stA with findings := stA.findings ++ r.result_findings }
          execFinally { stF with agent :=
            { stF.agent with status := .completed, final_result := some r,
                             finished_at := some t1 } }

/-- No key survives filtering away itself. -/
theorem not_mem_filter_ne (l : List String) (x : String) :
    x ∉ l.filter (fun i => i != x) := by
  intro hx
  have := (List.mem_filter.mp hx).2
  simp at this

/-- C9: if the agent's task logic raises then the agent row ends FAILED
with the exception message in `error_message` and `finished_at` set; if
it completes, the agent ends COMPLETED with its findings merged; and in
every case the agent is absent from the in-memory `active_agents`
registry afterwards and its sandbox (when one was created) is no longer
alive. -/
theorem c9_agent_execution (sandboxRes : Except String String)
    (execRes : Except String AgentRunResult) (t0 t1 : Nat) (st : ExecState) :
    (∀ e sid, sandboxRes = .ok sid → execRes = .error e →
      (executeAgent sandboxRes execRes t0 t1 st).agent.status = .failed
      ∧ (executeAgent sandboxRes execRes t0 t1 st).agent.error_message = some e
      ∧ (executeAgent sandboxRes execRes t0 t1 st).agent.finished_at = some t1)
    ∧ (∀ r sid, execRes = .ok r → sandboxRes = .ok sid →
      (executeAgent sandboxRes execRes t0 t1 st).agent.status = .completed
      ∧ (executeAgent sandboxRes execRes t0 t1 st).findings
          = st.findings ++ r.result_findings)
    ∧ st.agent.agent_id ∉ (executeAgent sandboxRes execRes t0 t1 st).active_agents
    ∧ (∀ sid, sandboxRes = .ok sid →
        sid ∉ (executeAgent sandboxRes execRes t0 t1 st).live_sandboxes) := by
  refine ⟨?_, ?_, ?_, ?_⟩
  · intro e sid hs he
    cases hs; cases he
    exact ⟨rfl, rfl, rfl⟩
  · intro r sid he hs
    cases he; cases hs
    exact ⟨rfl, rfl⟩
  · cases sandboxRes <;> cases execRes <;> simp [executeAgent, execFinally]
  · intro sid hs
    cases hs
    cases execRes <;> simp [executeAgent, execFinally]

/-- C9 witness: a concrete failing execution (sandbox created, task logic
raising "boom") ends FAILED with the message recorded, deregistered and
with the sandbox destroyed. -/
theorem c9_agent_execution_witness :
    (executeAgent (.ok "sb1") (.error "boom") 1 2
        ⟨⟨"ag1", .pending, none, none, none, none, none⟩, [], [], []⟩).agent.status = .failed
    ∧ "ag1" ∉ (executeAgent (.ok "sb1") (.error "boom") 1 2
        ⟨⟨"ag1", .pending, none, none, none, none, none⟩, [], [], []⟩).active_agents
    ∧ "sb1" ∉ (executeAgent (.ok "sb1") (.error "boom") 1 2
        ⟨⟨"ag1", .pending, none, none, none, none, none⟩, [], [], []⟩).live_sandboxes := by
  have h := c9_agent_execution (.ok "sb1") (.error "boom") 1 2
    ⟨⟨"ag1", .pending, none, none, none, none, none⟩, [], [], []⟩
  exact ⟨(h.1 "boom" "sb1" rfl rfl).1, h.2.2.1, h.2.2.2 "sb1" rfl⟩

end OrangeSage
